import Mathlib

/-!
Verification of the Movie seeding repository.

The repository has two source files:

* server/models.py — declares the SQLAlchemy model `Movie` with columns
  `id = db.Column(db.Integer, primary_key=True)` and
  `title = db.Column(db.String)`, a SerializerMixin-based serializer,
  and a textual representation `<Movie {title}>`.
* server/seed.py — the function `make_movies` that bulk-deletes the table
  via `Movie.query.delete()`, builds 50 `Movie` instances with titles
  `fake.sentence(nb_words=4).title()`, stages them with
  `db.session.add_all(movies)` and persists them with `db.session.commit()`.

This file embeds those two files shallowly: rows are a Lean structure, the
SQLAlchemy session is an explicit state (durable committed table, current
transaction view, pending staged objects, trace of SQL statements issued),
the Faker sentence generator is an abstract parameter, and Python string
operations are modelled over ASCII data.
-/

set_option autoImplicit false

/-- A value stored in (or serialized from) a column: integer, string, or SQL
NULL (Python None). -/
inductive Value where
  | int : Int → Value
  | str : String → Value
  | null : Value
deriving DecidableEq

/-- Embeds an instance of the model class `Movie` of server/models.py.
Each declared column is a field; a field is `none` when the Python attribute
is None (e.g. `id` before the row is committed, since `id` is assigned by the
storage layer on insertion). -/
structure Movie where
  id : Option Int
  title : Option String
deriving DecidableEq

/-- Embeds the Python constructor call `Movie(title=t)` of seed.py line 20:
only `title` is supplied, `id` stays unset until commit. -/
def Movie.new (t : String) : Movie :=
  { id := none, title := some t }

/-- Column value of the `id` attribute, as the storage layer sees it. -/
def valueOfId : Option Int → Value
  | some n => Value.int n
  | none => Value.null

/-- Column value of the `title` attribute, as the storage layer sees it. -/
def valueOfTitle : Option String → Value
  | some t => Value.str t
  | none => Value.null

/-- Embeds the SerializerMixin serializer `to_dict()` at class `Movie`:
a flat mapping with one entry per declared column (`id`, `title`), in
declaration order, and nothing else (no serialize_rules are set in
models.py, so all declared columns are included by default). -/
def Movie.to_dict (m : Movie) : List (String × Value) :=
  [("id", valueOfId m.id), ("title", valueOfTitle m.title)]

/-- Embeds how a Python f-string renders an Optional str: the string itself
when set, the text None otherwise. -/
def pyStrOf : Option String → String
  | some t => t
  | none => "None"

/-- Embeds `Movie.__repr__` of models.py lines 12-13, the f-string
`<Movie {self.title}>`. -/
def Movie.repr_str (m : Movie) : String :=
  "<Movie " ++ pyStrOf m.title ++ ">"

/-- Column types that appear in models.py (`db.Integer`, `db.String`). -/
inductive ColType where
  | integer : ColType
  | string : ColType
deriving DecidableEq

/-- A column declaration with the schema-level constraints SQLAlchemy
tracks: primary key flag, nullability, uniqueness, optional length bound. -/
structure Column where
  name : String
  ty : ColType
  primaryKey : Bool
  nullable : Bool
  unique : Bool
  maxLength : Option Nat
deriving DecidableEq

/-- Embeds `id = db.Column(db.Integer, primary_key=True)` of models.py
line 9. A primary key is implicitly non-nullable in SQLAlchemy; no explicit
unique or length constraint is declared. -/
def idCol : Column :=
  { name := "id", ty := ColType.integer, primaryKey := true,
    nullable := false, unique := false, maxLength := none }

/-- Embeds `title = db.Column(db.String)` of models.py line 10: no
primary_key, nullable by default, no unique constraint, no length bound. -/
def titleCol : Column :=
  { name := "title", ty := ColType.string, primaryKey := false,
    nullable := true, unique := false, maxLength := none }

/-- The declared columns of table `movies`, in declaration order. -/
def movieColumns : List Column := [idCol, titleCol]

/-- Whether a single column admits a value under its declared constraints:
NULL needs nullability, an integer needs an integer column, a string needs a
string column within the declared length bound (if any). -/
def colAdmits (c : Column) : Value → Bool
  | Value.null => c.nullable
  | Value.int _ => c.ty == ColType.integer
  | Value.str t =>
    c.ty == ColType.string &&
      (match c.maxLength with
       | none => true
       | some n => decide (t.length ≤ n))

/-- Whether a `Movie` row is admissible under the declared schema of
models.py: each attribute checked against its column declaration. -/
def rowAdmissible (m : Movie) : Bool :=
  colAdmits idCol (valueOfId m.id) && colAdmits titleCol (valueOfTitle m.title)

/-- Embeds Python `str.title()` over a character list (seed.py line 20
applies it to ASCII Faker output): an alphabetic character is uppercased
when the previous character was not alphabetic (start of a word) and
lowercased otherwise; non-alphabetic characters pass through and start a
new word. The Boolean argument records whether the previous character was
cased. -/
def titleCaseChars : Bool → List Char → List Char
  | _, [] => []
  | prevCased, c :: cs =>
    if c.isAlpha then
      (if prevCased then c.toLower else c.toUpper) :: titleCaseChars true cs
    else
      c :: titleCaseChars false cs

/-- Embeds Python `str.title()` on a string. -/
def str_title (s : String) : String :=
  String.mk (titleCaseChars false s.data)

theorem titleCaseChars_length (b : Bool) (cs : List Char) :
    (titleCaseChars b cs).length = cs.length := by
  induction cs generalizing b with
  | nil => rfl
  | cons c cs ih =>
    by_cases h : c.isAlpha <;> simp [titleCaseChars, h, ih]

theorem str_title_length (s : String) :
    (str_title s).length = s.length :=
  titleCaseChars_length false s.data

/-- A SQL statement the core issues against the storage backend: a bulk
delete of all rows of the movies table, or a batch insert of n rows. -/
inductive Stmt where
  | deleteAll : Stmt
  | insertRows : Nat → Stmt
deriving DecidableEq

/-- The storage-level errors of the error taxonomy: connection unavailable
or lost, and a constraint rejection. -/
inductive StorageError where
  | storageUnavailable : StorageError
  | constraintViolation : StorageError
deriving DecidableEq

/-- The state of the SQLAlchemy session and its storage backend:
`committed` is the durable content of the movies table, `tx` is the content
as seen inside the current (not yet committed) transaction, `pending` are
the session objects staged by add_all but not yet flushed, `stmts` is the
trace of SQL statements issued so far, and `nextId` is the backend counter
from which primary keys are auto-assigned at commit. -/
structure DBState where
  committed : List Movie
  tx : List Movie
  pending : List Movie
  stmts : List Stmt
  nextId : Int
deriving DecidableEq

/-- A session as seed.py obtains it inside `app.app_context()`: the
transaction view equals the durable table and nothing is staged. -/
def freshSession (table : List Movie) (nid : Int) : DBState :=
  { committed := table, tx := table, pending := [], stmts := [], nextId := nid }

/-- Fault injection for the two operations of the routine that reach the
backend: each field, when set, is the storage error that the corresponding
operation raises. -/
structure FailSpec where
  deleteFail : Option StorageError
  commitFail : Option StorageError
deriving DecidableEq

/-- The run in which the backend raises no error. -/
def noFail : FailSpec :=
  { deleteFail := none, commitFail := none }

/-- Rolling back the session after an error: the transaction view reverts
to the durable table and staged objects are discarded; the durable table is
untouched. -/
def rollback (s : DBState) : DBState :=
  { s with tx := s.committed, pending := [] }

/-- Embeds `Movie.query.delete()` of seed.py line 16: issue a single bulk
DELETE statement inside the current transaction, emptying the transaction
view; the durable table is not changed until a commit. On a backend error
the exception carries the rolled-back session. -/
def query_delete (f : FailSpec) (s : DBState) :
    Except (StorageError × DBState) DBState :=
  match f.deleteFail with
  | some e => Except.error (e, rollback s)
  | none =>
    Except.ok { s with tx := [], stmts := s.stmts ++ [Stmt.deleteAll] }

/-- Embeds `db.session.add_all(movies)` of seed.py line 23: stage the
objects in the session; no statement reaches the backend. -/
def add_all (rows : List Movie) (s : DBState) : DBState :=
  { s with pending := s.pending ++ rows }

/-- Primary keys auto-assigned by the backend at flush: consecutive values
of its counter, one per staged row, in order. -/
def assignIds (nid : Int) : List Movie → List Movie
  | [] => []
  | r :: rs => { r with id := some nid } :: assignIds (nid + 1) rs

/-- Embeds `db.session.commit()` of seed.py line 24: flush the staged
objects as one batch INSERT statement and commit the transaction, making
the transaction view durable. On a backend error the transaction is rolled
back and the durable table keeps its prior content. -/
def session_commit (f : FailSpec) (s : DBState) :
    Except (StorageError × DBState) DBState :=
  match f.commitFail with
  | some e => Except.error (e, rollback s)
  | none =>
    let inserted := assignIds s.nextId s.pending
    let newTable := s.tx ++ inserted
    Except.ok
      { committed := newTable, tx := newTable, pending := [],
        stmts := s.stmts ++ [Stmt.insertRows s.pending.length],
        nextId := s.nextId + s.pending.length }

/-- Embeds the generation loop of seed.py lines 18-21: 50 iterations, each
appending `Movie(title=fake.sentence(nb_words=4).title())` to the list.
The Faker sentence generator is the parameter `gen`, applied to the
word-count argument 4 and the index of the call. -/
def fiftyMovies (gen : Nat → Nat → String) : List Movie :=
  (List.range 50).foldl
    (fun movies i => movies ++ [Movie.new (str_title (gen 4 i))]) []

/-- Embeds `make_movies` of seed.py lines 14-24: bulk delete, generate the
50 movies, stage them all, commit. -/
def make_movies (gen : Nat → Nat → String) (f : FailSpec) (s : DBState) :
    Except (StorageError × DBState) DBState := do
  let s1 ← query_delete f s
  let s2 := add_all (fiftyMovies gen) s1
  session_commit f s2

/-- The routine stopped after its k-th session operation (0 = before the
delete, 1 = after the delete, 2 = after staging; from 3 on the routine has
run to completion, the commit being its last operation). -/
def make_moviesUpTo (gen : Nat → Nat → String) (f : FailSpec) (s : DBState) :
    Nat → Except (StorageError × DBState) DBState
  | 0 => Except.ok s
  | 1 => query_delete f s
  | 2 => do
    let s1 ← query_delete f s
    Except.ok (add_all (fiftyMovies gen) s1)
  | _ + 3 => make_movies gen f s

/-- Embeds the `__main__` block of seed.py lines 26-28: run `make_movies`
inside the application context with no local handler; the process exit code
is 0 on success and 1 on an uncaught exception, whose storage error is
reported as raised. -/
def seedMain (gen : Nat → Nat → String) (f : FailSpec) (s : DBState) :
    Nat × Option StorageError :=
  match make_movies gen f s with
  | Except.ok _ => (0, none)
  | Except.error (e, _) => (1, some e)

/-- The session state in which a run (successful or aborted) left the
system. -/
def resState : Except (StorageError × DBState) DBState → DBState
  | Except.ok s => s
  | Except.error (_, s) => s

/-- Consecutive runs of the seed routine, each required to succeed, against
the same session. -/
def make_moviesIter (gen : Nat → Nat → String) (f : FailSpec) (s : DBState) :
    Nat → Except (StorageError × DBState) DBState
  | 0 => Except.ok s
  | n + 1 => do
    let s1 ← make_moviesIter gen f s n
    make_movies gen f s1

theorem assignIds_length (nid : Int) (rows : List Movie) :
    (assignIds nid rows).length = rows.length := by
  induction rows generalizing nid with
  | nil => rfl
  | cons r rs ih => simp [assignIds, ih]

theorem assignIds_titles (nid : Int) (rows : List Movie) :
    (assignIds nid rows).map Movie.title = rows.map Movie.title := by
  induction rows generalizing nid with
  | nil => rfl
  | cons r rs ih => simp [assignIds, ih]

theorem foldl_append_eq_map {α : Type} (g : Nat → α) (l : List Nat) :
    ∀ acc : List α,
      l.foldl (fun movies i => movies ++ [g i]) acc = acc ++ l.map g := by
  induction l with
  | nil => simp
  | cons x xs ih => intro acc; simp [List.foldl_cons, ih]

theorem fiftyMovies_eq_map (gen : Nat → Nat → String) :
    fiftyMovies gen =
      (List.range 50).map (fun i => Movie.new (str_title (gen 4 i))) := by
  simpa [fiftyMovies] using
    foldl_append_eq_map (fun i => Movie.new (str_title (gen 4 i)))
      (List.range 50) []

theorem fiftyMovies_length (gen : Nat → Nat → String) :
    (fiftyMovies gen).length = 50 := by
  simp [fiftyMovies_eq_map]

/-- Anatomy of a successful run from a state with nothing staged: both
fault injections must be off, and the resulting state is completely
determined — the durable table is exactly the 50 generated movies with ids
assigned by the backend, nothing stays staged, the transaction view agrees
with the durable table, and the statement trace grows by exactly the bulk
delete followed by the batch insert of 50 rows. -/
theorem make_movies_ok (gen : Nat → Nat → String) (f : FailSpec)
    (s : DBState) (s2 : DBState) (hp : s.pending = [])
    (h : make_movies gen f s = Except.ok s2) :
    f.deleteFail = none ∧ f.commitFail = none ∧
      s2.committed = assignIds s.nextId (fiftyMovies gen) ∧
      s2.tx = s2.committed ∧ s2.pending = [] ∧
      s2.stmts = s.stmts ++ [Stmt.deleteAll, Stmt.insertRows 50] ∧
      s2.nextId = s.nextId + 50 := by
  rcases hd : f.deleteFail with _ | e
  · rcases hc : f.commitFail with _ | e
    · simp only [make_movies, query_delete, session_commit, add_all, hd, hc,
        bind, Except.bind, Except.ok.injEq] at h
      subst h
      simp [hp, fiftyMovies_length]
    · simp [make_movies, query_delete, session_commit, add_all, hd, hc,
        bind, Except.bind] at h
  · simp [make_movies, query_delete, hd, bind, Except.bind] at h

/-- Whether a run of the routine succeeded (no uncaught exception). -/
def runSucceeded : Except (StorageError × DBState) DBState → Bool
  | Except.ok _ => true
  | Except.error _ => false

/-- Keeping nothing staged is preserved across any number of successful
runs, and any positive number of successful runs leaves the durable table
at exactly 50 rows. -/
theorem make_moviesIter_ok (gen : Nat → Nat → String) (f : FailSpec)
    (s : DBState) (n : Nat) (s2 : DBState) (hp : s.pending = [])
    (h : make_moviesIter gen f s n = Except.ok s2) :
    s2.pending = [] ∧ (1 ≤ n → s2.committed.length = 50) := by
  induction n generalizing s2 with
  | zero =>
    simp [make_moviesIter] at h
    subst h
    exact ⟨hp, by omega⟩
  | succ n ih =>
    rcases hres : make_moviesIter gen f s n with p | s1
    · simp [make_moviesIter, hres, bind, Except.bind] at h
    · simp only [make_moviesIter, hres, bind, Except.bind] at h
      obtain ⟨hp1, _⟩ := ih s1 hres
      obtain ⟨_, _, hc, _, hpend, _, _⟩ := make_movies_ok gen f s1 s2 hp1 h
      refine ⟨hpend, fun _ => ?_⟩
      rw [hc, assignIds_length, fiftyMovies_length]

/-- A fixed generator used to instantiate theorems at concrete inputs. -/
def gen0 : Nat → Nat → String := fun _ _ => "ab"

/-- Claim C1: for every prior table state, a successful execution of
make_movies leaves the Movie table with exactly 50 records; the routine
constructs exactly 50 Movie instances and persists all of them (the
committed rows carry exactly the titles of the constructed instances). -/
theorem movie_C1_count (gen : Nat → Nat → String) (f : FailSpec)
    (table : List Movie) (nid : Int) (s2 : DBState)
    (h : make_movies gen f (freshSession table nid) = Except.ok s2) :
    s2.committed.length = 50 ∧ (fiftyMovies gen).length = 50 ∧
      s2.committed.map Movie.title = (fiftyMovies gen).map Movie.title := by
  obtain ⟨_, _, hc, _, _, _, _⟩ :=
    make_movies_ok gen f (freshSession table nid) s2 rfl h
  refine ⟨?_, fiftyMovies_length gen, ?_⟩
  · rw [hc, assignIds_length, fiftyMovies_length]
  · rw [hc, assignIds_titles]

theorem movie_C1_count_witness :
    (resState (make_movies gen0 noFail (freshSession [] 1))).committed.length
      = 50 :=
  (movie_C1_count gen0 noFail [] 1
    (resState (make_movies gen0 noFail (freshSession [] 1))) (by rfl)).1

/-- Claim C2: over any number of consecutive successful runs of the seed
routine, the Movie table never holds more than 50 records after any run. -/
theorem movie_C2_no_accumulation (gen : Nat → Nat → String) (f : FailSpec)
    (table : List Movie) (nid : Int) (n : Nat) (s2 : DBState) (hn : 1 ≤ n)
    (h : make_moviesIter gen f (freshSession table nid) n = Except.ok s2) :
    s2.committed.length ≤ 50 := by
  obtain ⟨_, hlen⟩ :=
    make_moviesIter_ok gen f (freshSession table nid) n s2 rfl h
  exact le_of_eq (hlen hn)

theorem movie_C2_no_accumulation_witness :
    (resState (make_moviesIter gen0 noFail (freshSession [] 1) 2)).committed.length
      ≤ 50 :=
  movie_C2_no_accumulation gen0 noFail [] 1 2
    (resState (make_moviesIter gen0 noFail (freshSession [] 1) 2))
    (by decide) (by rfl)

/-- Claim C3: the routine stages all 50 generated movies in a single
pending batch (after the staging step the session holds exactly the 50
generated instances, nothing else) and persists them with the one commit;
whenever the commit raises, the run fails and the durable table still holds
exactly its prior rows — no partial insert is visible. -/
theorem movie_C3_atomic_commit (gen : Nat → Nat → String)
    (table : List Movie) (nid : Int) :
    (resState (make_moviesUpTo gen noFail (freshSession table nid) 2)).pending
        = fiftyMovies gen
    ∧ (fiftyMovies gen).length = 50
    ∧ ∀ (d : Option StorageError) (e : StorageError),
        runSucceeded
            (make_movies gen { deleteFail := d, commitFail := some e }
              (freshSession table nid)) = false
        ∧ (resState
            (make_movies gen { deleteFail := d, commitFail := some e }
              (freshSession table nid))).committed = table := by
  refine ⟨?_, fiftyMovies_length gen, ?_⟩
  · simp [make_moviesUpTo, query_delete, add_all, noFail, bind, Except.bind,
      resState, freshSession]
  · intro d e
    rcases d with _ | e0 <;>
      simp [make_movies, query_delete, session_commit, add_all, rollback,
        bind, Except.bind, resState, freshSession, runSucceeded]

/-- Claim C4: on every successful invocation the routine issues, in order,
exactly one bulk delete and then exactly one batch insert of the 50 rows of
the single commit — no other statement reaches storage — and the rows it
persists are the 50 generated instances. -/
theorem movie_C4_statement_order (gen : Nat → Nat → String) (f : FailSpec)
    (table : List Movie) (nid : Int) (s2 : DBState)
    (h : make_movies gen f (freshSession table nid) = Except.ok s2) :
    s2.stmts = [Stmt.deleteAll, Stmt.insertRows 50]
    ∧ s2.committed.map Movie.title = (fiftyMovies gen).map Movie.title
    ∧ (fiftyMovies gen).length = 50 := by
  obtain ⟨_, _, hc, _, _, hst, _⟩ :=
    make_movies_ok gen f (freshSession table nid) s2 rfl h
  refine ⟨by simpa [freshSession] using hst, ?_, fiftyMovies_length gen⟩
  rw [hc, assignIds_titles]

theorem movie_C4_statement_order_witness :
    (resState (make_movies gen0 noFail (freshSession [] 1))).stmts
      = [Stmt.deleteAll, Stmt.insertRows 50] :=
  (movie_C4_statement_order gen0 noFail [] 1
    (resState (make_movies gen0 noFail (freshSession [] 1))) (by rfl)).1

/-- Claim C5: the commit is the last of the routine's operations; after
any prefix of the routine that stops before the commit the durable table
still holds exactly the rows it held at entry, and an aborted run likewise
leaves the durable table at its entry content. -/
theorem movie_C5_delete_uncommitted (gen : Nat → Nat → String)
    (f : FailSpec) (s : DBState) (k : Nat) (hk : k ≤ 2) :
    (resState (make_moviesUpTo gen f s k)).committed = s.committed
    ∧ make_moviesUpTo gen f s 3 = make_movies gen f s
    ∧ ∀ (e : StorageError) (s2 : DBState),
        make_movies gen f s = Except.error (e, s2) →
          s2.committed = s.committed := by
  refine ⟨?_, rfl, ?_⟩
  · interval_cases k
    · rfl
    · rcases hd : f.deleteFail with _ | e0 <;>
        simp [make_moviesUpTo, query_delete, rollback, hd, resState]
    · rcases hd : f.deleteFail with _ | e0 <;>
        simp [make_moviesUpTo, query_delete, add_all, rollback, hd,
          bind, Except.bind, resState]
  · intro e s2 h
    rcases hd : f.deleteFail with _ | e0
    · rcases hc : f.commitFail with _ | e1
      · simp [make_movies, query_delete, session_commit, add_all, hd, hc,
          bind, Except.bind] at h
      · simp only [make_movies, query_delete, session_commit, add_all, hd, hc,
          bind, Except.bind, Except.error.injEq, Prod.mk.injEq] at h
        rw [← h.2, rollback]
    · simp only [make_movies, query_delete, hd, bind, Except.bind,
        Except.error.injEq, Prod.mk.injEq] at h
      rw [← h.2, rollback]

theorem movie_C5_delete_uncommitted_witness :
    (resState
        (make_movies gen0
          { deleteFail := none, commitFail := some StorageError.storageUnavailable }
          (freshSession [] 1))).committed
      = (freshSession [] 1).committed :=
  (movie_C5_delete_uncommitted gen0
      { deleteFail := none, commitFail := some StorageError.storageUnavailable }
      (freshSession [] 1) 0 (by decide)).2.2
    StorageError.storageUnavailable
    (resState
      (make_movies gen0
        { deleteFail := none, commitFail := some StorageError.storageUnavailable }
        (freshSession [] 1)))
    (by rfl)

/-- Claim C6: the core handles no failure locally: a storage error raised
at the delete or at the commit propagates unchanged out of make_movies and
the process exits with code 1 (non-zero) reporting exactly that error,
while an error-free run exits 0; there is no retry and no substituted
message. -/
theorem movie_C6_error_propagation (gen : Nat → Nat → String)
    (table : List Movie) (nid : Int) :
    (∀ (e : StorageError) (fc : Option StorageError),
        seedMain gen { deleteFail := some e, commitFail := fc }
          (freshSession table nid) = (1, some e))
    ∧ (∀ e : StorageError,
        seedMain gen { deleteFail := none, commitFail := some e }
          (freshSession table nid) = (1, some e))
    ∧ seedMain gen noFail (freshSession table nid) = (0, none) := by
  refine ⟨fun e fc => ?_, fun e => ?_, ?_⟩ <;>
    simp [seedMain, make_movies, query_delete, session_commit, add_all,
      noFail, bind, Except.bind]

/-- Claim C7: the i-th generated movie (for every i < 50) has as its title
exactly the sentence returned by the generator called with word-count 4,
with title-casing applied by the core afterward; the casing step preserves
length, so a non-empty generator output yields a non-empty title. -/
theorem movie_C7_titles (gen : Nat → Nat → String) (i : Nat)
    (hi : i < 50) :
    (fiftyMovies gen).get? i = some (Movie.new (str_title (gen 4 i)))
    ∧ (str_title (gen 4 i)).length = (gen 4 i).length
    ∧ (gen 4 i ≠ "" → str_title (gen 4 i) ≠ "") := by
  refine ⟨?_, str_title_length (gen 4 i), fun hne hcon => ?_⟩
  · rw [fiftyMovies_eq_map, List.get?_map, List.get?_range hi]
    rfl
  · apply hne
    have hlen := str_title_length (gen 4 i)
    rw [hcon] at hlen
    exact String.ext (List.length_eq_zero.mp hlen.symm)

theorem movie_C7_titles_witness :
    (fiftyMovies gen0).get? 0 = some (Movie.new (str_title (gen0 4 0)))
    ∧ str_title (gen0 4 0) ≠ "" :=
  ⟨(movie_C7_titles gen0 0 (by decide)).1,
   (movie_C7_titles gen0 0 (by decide)).2.2 (by decide)⟩

/-- Claim C8: serializing any Movie yields a flat mapping whose keys are
exactly the declared columns id and title (nothing else), and for a movie
built by the constructor the serialized title is exactly the string given
at construction time. -/
theorem movie_C8_serialization (m : Movie) (t : String) :
    (Movie.to_dict m).map Prod.fst = ["id", "title"]
    ∧ List.lookup "title" (Movie.to_dict (Movie.new t))
        = some (Value.str t) :=
  ⟨rfl, rfl⟩

/-- Claim C9: the schema declares id as an integer primary key and title
as a string carrying no uniqueness, length, or non-null constraint, so a
Movie row with an absent title is admissible under the declared schema. -/
theorem movie_C9_schema :
    idCol.ty = ColType.integer ∧ idCol.primaryKey = true
    ∧ titleCol.ty = ColType.string ∧ titleCol.nullable = true
    ∧ titleCol.unique = false ∧ titleCol.maxLength = none
    ∧ titleCol.primaryKey = false
    ∧ rowAdmissible { id := some 1, title := none } = true := by
  decide

/-- Claim C10: the textual representation of a Movie whose title is the
string t is exactly the text <Movie followed by a space, t, and a closing
angle bracket, for every id value. -/
theorem movie_C10_repr_format (i : Option Int) (t : String) :
    Movie.repr_str { id := i, title := some t } = "<Movie " ++ t ++ ">" :=
  rfl


